import Mathlib

/-!
Verification of the QueryFi micropayment settlement pipeline.

This file gives a shallow embedding of the payment core of the QueryFi
repository and proves properties of it:

* `MicropaymentSettlementHook.sol` — the on-chain accumulate/auto-settle
  contract (`depositMicropayment`, `_settle`, `recordSettlement`,
  `settleNow`), modelled as a state machine over `ContractState` with an
  explicit ERC20 balance book; a Solidity revert is `Except.error`
  (no partial state survives).
* `settlement-tracker.ts` — the off-chain payment ledger
  (`recordPayment`, `resetAfterSettlement`).
* `settlement-service.ts` — the settlement coordinator
  (`withRetry`, `triggerOnChainSettlement`, `checkAndAutoSettle`),
  with network outcomes supplied as oracles.
* `app/api/query/route.ts` — the replay-protected billing check.
* `YellowPaymentClient` — the state-channel client
  (`sendMicropayment`, `handleMessage`), with the relay response
  supplied as an oracle.
-/

namespace QueryFi

/-- Addresses, as abstract identifiers. -/
abbrev Address := Nat

/-- ERC20 balance book: an association list from address to balance. -/
abbrev Bal := List (Address × Nat)

/-- Balance lookup; absent addresses hold zero. -/
def balOf : Bal → Address → Nat
  | [], _ => 0
  | (a, v) :: rest, x => if x = a then v else balOf rest x

/-- Overwrite an address's balance. -/
def setBal : Bal → Address → Nat → Bal
  | [], a, v => [(a, v)]
  | (a', v') :: rest, a, v =>
      if a = a' then (a, v) :: rest else (a', v') :: setBal rest a v

/-- ERC20 transfer: `none` (revert) when the source balance is insufficient,
as `SafeERC20.safeTransfer` / `safeTransferFrom` bubble up.  The balance of
`src` is debited before `dst` is credited, as in the standard ERC20
implementation. -/
def erc20Transfer (b : Bal) (src dst : Address) (amt : Nat) : Option Bal :=
  if balOf b src < amt then none
  else
    let b1 := setBal b src (balOf b src - amt)
    some (setBal b1 dst (balOf b1 dst + amt))

theorem balOf_setBal_same (b : Bal) (a : Address) (v : Nat) :
    balOf (setBal b a v) a = v := by
  induction b with
  | nil => simp [setBal, balOf]
  | cons hd tl ih =>
      obtain ⟨a', v'⟩ := hd
      by_cases h : a = a'
      · simp [setBal, h, balOf]
      · simp [setBal, h, balOf, ih, Ne.symm h]

theorem balOf_setBal_ne (b : Bal) (a x : Address) (v : Nat) (h : x ≠ a) :
    balOf (setBal b a v) x = balOf b x := by
  induction b with
  | nil => simp [setBal, balOf, h]
  | cons hd tl ih =>
      obtain ⟨a', v'⟩ := hd
      by_cases h' : a = a'
      · subst h'
        simp [setBal, balOf, h]
      · by_cases hx : x = a'
        · simp [setBal, h', balOf, hx]
        · simp [setBal, h', balOf, hx, ih]

/-- A successful transfer, described pointwise. -/
theorem erc20Transfer_spec (b : Bal) (src dst : Address) (amt : Nat)
    (h : amt ≤ balOf b src) (hne : src ≠ dst) :
    ∃ b', erc20Transfer b src dst amt = some b' ∧
      balOf b' src = balOf b src - amt ∧
      balOf b' dst = balOf b dst + amt ∧
      ∀ x, x ≠ src → x ≠ dst → balOf b' x = balOf b x := by
  have hb1 : ∀ x, balOf (setBal b src (balOf b src - amt)) x
      = if x = src then balOf b src - amt else balOf b x := by
    intro x
    by_cases hx : x = src
    · subst hx
      simp [balOf_setBal_same]
    · simp [hx, balOf_setBal_ne _ _ _ _ hx]
  refine ⟨setBal (setBal b src (balOf b src - amt)) dst
      (balOf (setBal b src (balOf b src - amt)) dst + amt), ?_, ?_, ?_, ?_⟩
  · unfold erc20Transfer
    rw [if_neg (by omega)]
  · rw [balOf_setBal_ne _ _ _ _ hne, hb1]
    simp
  · rw [balOf_setBal_same, hb1]
    simp [Ne.symm hne]
  · intro x hxs hxd
    rw [balOf_setBal_ne _ _ _ _ hxd, hb1, if_neg hxs]

/-! ## The on-chain contract: `MicropaymentSettlementHook.sol` -/

/-- Constant `MIN_DEPOSIT`: 0.001 USDC (1000 units with 6 decimals). -/
def MIN_DEPOSIT : Nat := 1000

/-- Constant `MIN_THRESHOLD`: 0.01 USDC. -/
def MIN_THRESHOLD : Nat := 10000

/-- The contract's storage, plus the USDC balance book and the contract's
own address `self` (`address(this)`). -/
structure ContractState where
  self : Address
  agentWallet : Address
  settlementThreshold : Nat
  accumulatedBalance : Nat
  authorizedPayers : List Address
  totalSettled : Nat
  settlementCount : Nat
  usdc : Bal
  deriving DecidableEq, Repr

/-- The contract's custom errors (plus the ERC20 transfer revert). -/
inductive ContractError
  | OnlyAgentCanSettle
  | OnlyAgentCanManage
  | AmountTooSmall
  | PayerNotAuthorized
  | PayerAlreadyAuthorized
  | PayerNotFound
  | ThresholdTooLow
  | TransferReverted
  deriving DecidableEq, Repr

/-- The contract's internal `_settle`: capture `amount = accumulatedBalance`,
zero it, bump `settlementCount` and `totalSettled`, then transfer `amount`
to the agent wallet.  A failing transfer reverts the whole transition. -/
def settleInternal (s : ContractState) : Except ContractError ContractState :=
  let amount := s.accumulatedBalance
  let s1 : ContractState :=
    { s with accumulatedBalance := 0,
             settlementCount := s.settlementCount + 1,
             totalSettled := s.totalSettled + amount }
  match erc20Transfer s1.usdc s1.self s1.agentWallet amount with
  | none => .error .TransferReverted
  | some b => .ok { s1 with usdc := b }

/-- Models `depositMicropayment(amount, queryId)` called by `sender`:
authorization and minimum checks, effects before the external pull, then
auto-settle when the new balance reaches the threshold. -/
def depositMicropayment (s : ContractState) (sender : Address) (amount : Nat)
    (_qid : Nat) : Except ContractError ContractState :=
  if sender ∉ s.authorizedPayers then .error .PayerNotAuthorized
  else if amount < MIN_DEPOSIT then .error .AmountTooSmall
  else
    let newBalance := s.accumulatedBalance + amount
    let s1 : ContractState := { s with accumulatedBalance := newBalance }
    match erc20Transfer s1.usdc sender s1.self amount with
    | none => .error .TransferReverted
    | some b =>
        let s2 : ContractState := { s1 with usdc := b }
        if s2.settlementThreshold ≤ newBalance then settleInternal s2
        else .ok s2

/-- Models `settleNow()`: agent-only manual flush; no-op when nothing accumulated. -/
def settleNow (s : ContractState) (sender : Address) :
    Except ContractError ContractState :=
  if sender ≠ s.agentWallet then .error .OnlyAgentCanSettle
  else if 0 < s.accumulatedBalance then settleInternal s
  else .ok s

/-- Models `recordSettlement(amount, queryId)` called by `sender`: agent-only;
bumps the lifetime counters, then pays the agent from the hook's own USDC
reserve only when that reserve covers `amount` — otherwise the transfer is
skipped without reverting. -/
def recordSettlement (s : ContractState) (sender : Address) (amount : Nat)
    (_qid : Nat) : Except ContractError ContractState :=
  if sender ≠ s.agentWallet then .error .OnlyAgentCanSettle
  else if amount < MIN_DEPOSIT then .error .AmountTooSmall
  else
    let s1 : ContractState :=
      { s with settlementCount := s.settlementCount + 1,
               totalSettled := s.totalSettled + amount }
    let hookBalance := balOf s1.usdc s1.self
    if amount ≤ hookBalance then
      match erc20Transfer s1.usdc s1.self s1.agentWallet amount with
      | none => .error .TransferReverted
      | some b => .ok { s1 with usdc := b }
    else .ok s1

/-- C1: a deposit by an authorized payer of at least `MIN_DEPOSIT` grows
`accumulatedBalance` by `amount`; when the grown balance reaches
`settlementThreshold` the settle-and-zero sequence runs in the same call
(balance zeroed, `settlementCount` bumped, `totalSettled` grown by the
settled balance, that balance transferred to the agent wallet); when the
grown balance is one unit below the threshold no settlement occurs and
the balance keeps its new value. -/
theorem C1_depositMicropayment_autoSettle
    (s : ContractState) (p : Address) (amount qid : Nat)
    (hauth : p ∈ s.authorizedPayers)
    (hmin : MIN_DEPOSIT ≤ amount)
    (hpay : amount ≤ balOf s.usdc p)
    (hres : s.accumulatedBalance ≤ balOf s.usdc s.self)
    (hps : p ≠ s.self) (has : s.agentWallet ≠ s.self) (hpa : p ≠ s.agentWallet) :
    ∃ s', depositMicropayment s p amount qid = Except.ok s' ∧
      (s.settlementThreshold ≤ s.accumulatedBalance + amount →
        s'.accumulatedBalance = 0 ∧
        s'.settlementCount = s.settlementCount + 1 ∧
        s'.totalSettled = s.totalSettled + (s.accumulatedBalance + amount) ∧
        balOf s'.usdc s.agentWallet
          = balOf s.usdc s.agentWallet + (s.accumulatedBalance + amount)) ∧
      (s.accumulatedBalance + amount + 1 = s.settlementThreshold →
        s'.accumulatedBalance = s.accumulatedBalance + amount ∧
        s'.settlementCount = s.settlementCount ∧
        s'.totalSettled = s.totalSettled) := by
  have hmem : ¬ p ∉ s.authorizedPayers := by simpa using hauth
  obtain ⟨b, hb, hbsrc, hbdst, hbother⟩ :=
    erc20Transfer_spec s.usdc p s.self amount hpay hps
  have hbagent : balOf b s.agentWallet = balOf s.usdc s.agentWallet :=
    hbother s.agentWallet (fun hx => hpa hx.symm) has
  unfold depositMicropayment
  rw [if_neg hmem, if_neg (by omega : ¬ amount < MIN_DEPOSIT)]
  simp only
  rw [hb]
  simp only
  by_cases hth : s.settlementThreshold ≤ s.accumulatedBalance + amount
  · rw [if_pos hth]
    obtain ⟨b2, hb2, hb2src, hb2dst, hb2other⟩ :=
      erc20Transfer_spec b s.self s.agentWallet (s.accumulatedBalance + amount)
        (by omega) (fun hx => has hx.symm)
    unfold settleInternal
    simp only
    rw [hb2]
    refine ⟨_, rfl, fun _ => ⟨rfl, rfl, rfl, ?_⟩, fun habs => absurd habs (by omega)⟩
    simp only
    rw [hb2dst, hbagent]
  · rw [if_neg hth]
    exact ⟨_, rfl, fun habs => absurd habs hth, fun _ => ⟨rfl, rfl, rfl⟩⟩

/-- Closed instance of C1: in a fresh contract with threshold 1 USDC,
payer 3 holding 2 USDC deposits exactly the threshold. -/
theorem C1_depositMicropayment_autoSettle_witness :
    ∃ s', depositMicropayment
        { self := 1, agentWallet := 2, settlementThreshold := 1000000,
          accumulatedBalance := 0, authorizedPayers := [3], totalSettled := 0,
          settlementCount := 0, usdc := [(3, 2000000)] } 3 1000000 0
        = Except.ok s' ∧
      (1000000 ≤ 0 + 1000000 →
        s'.accumulatedBalance = 0 ∧
        s'.settlementCount = 0 + 1 ∧
        s'.totalSettled = 0 + (0 + 1000000) ∧
        balOf s'.usdc 2 = balOf [(3, 2000000)] 2 + (0 + 1000000)) ∧
      (0 + 1000000 + 1 = 1000000 →
        s'.accumulatedBalance = 0 + 1000000 ∧
        s'.settlementCount = 0 ∧
        s'.totalSettled = 0) :=
  C1_depositMicropayment_autoSettle
    { self := 1, agentWallet := 2, settlementThreshold := 1000000,
      accumulatedBalance := 0, authorizedPayers := [3], totalSettled := 0,
      settlementCount := 0, usdc := [(3, 2000000)] } 3 1000000 0
    (by decide) (by decide) (by decide) (by decide)
    (by decide) (by decide) (by decide)

/-- C7: an agent-only `recordSettlement` that passes its checks bumps
`settlementCount` by one and `totalSettled` by `amount`, never touches
`accumulatedBalance`, pays `amount` to the agent wallet when the hook's
own USDC reserve covers it, and leaves the token book untouched (no
revert) when the reserve is insufficient. -/
theorem C7_recordSettlement_countersAndReserve
    (s : ContractState) (amount qid : Nat)
    (hmin : MIN_DEPOSIT ≤ amount) :
    ∃ s', recordSettlement s s.agentWallet amount qid = Except.ok s' ∧
      s'.settlementCount = s.settlementCount + 1 ∧
      s'.totalSettled = s.totalSettled + amount ∧
      s'.accumulatedBalance = s.accumulatedBalance ∧
      (amount ≤ balOf s.usdc s.self → s.self ≠ s.agentWallet →
        balOf s'.usdc s.agentWallet = balOf s.usdc s.agentWallet + amount) ∧
      (balOf s.usdc s.self < amount → s'.usdc = s.usdc) := by
  unfold recordSettlement
  rw [if_neg (by simp), if_neg (by omega : ¬ amount < MIN_DEPOSIT)]
  simp only
  by_cases hreserve : amount ≤ balOf s.usdc s.self
  · rw [if_pos hreserve]
    by_cases hsa : s.self = s.agentWallet
    · -- self-transfer: the guard still holds; describe the resulting book
      have hnz : ¬ balOf s.usdc s.self < amount := by omega
      unfold erc20Transfer
      rw [if_neg hnz]
      exact ⟨_, rfl, rfl, rfl, rfl,
        fun _ habs => absurd hsa habs, fun habs => absurd hreserve (by omega)⟩
    · obtain ⟨b, hb, hbsrc, hbdst, hbother⟩ :=
        erc20Transfer_spec s.usdc s.self s.agentWallet amount hreserve hsa
      rw [hb]
      exact ⟨_, rfl, rfl, rfl, rfl, fun _ _ => hbdst,
        fun habs => absurd hreserve (by omega)⟩
  · rw [if_neg hreserve]
    exact ⟨_, rfl, rfl, rfl, rfl,
      fun habs => absurd habs hreserve, fun _ => rfl⟩

/-- Closed instance of C7: reserve 500 < amount 1000, counters still move
and the book is untouched. -/
theorem C7_recordSettlement_countersAndReserve_witness :
    ∃ s', recordSettlement
        { self := 1, agentWallet := 2, settlementThreshold := 1000000,
          accumulatedBalance := 70, authorizedPayers := [2], totalSettled := 5,
          settlementCount := 4, usdc := [(1, 500)] } 2 1000 0
        = Except.ok s' ∧
      s'.settlementCount = 4 + 1 ∧
      s'.totalSettled = 5 + 1000 ∧
      s'.accumulatedBalance = 70 ∧
      (1000 ≤ balOf [(1, 500)] 1 → (1 : Address) ≠ 2 →
        balOf s'.usdc 2 = balOf [(1, 500)] 2 + 1000) ∧
      (balOf [(1, 500)] 1 < 1000 → s'.usdc = [(1, 500)]) :=
  C7_recordSettlement_countersAndReserve
    { self := 1, agentWallet := 2, settlementThreshold := 1000000,
      accumulatedBalance := 70, authorizedPayers := [2], totalSettled := 5,
      settlementCount := 4, usdc := [(1, 500)] } 1000 0 (by decide)

/-- C10: `recordSettlement` with `amount < MIN_DEPOSIT` reverts with
`AmountTooSmall` even when the caller is the agent wallet; the revert
surfaces as `Except.error`, so no post-state exists and no counter
changes. -/
theorem C10_recordSettlement_belowMinReverts
    (s : ContractState) (amount qid : Nat)
    (h : amount < MIN_DEPOSIT) :
    recordSettlement s s.agentWallet amount qid
      = Except.error ContractError.AmountTooSmall := by
  unfold recordSettlement
  rw [if_neg (by simp), if_pos h]

/-- Closed instance of C10: amount 999 < 1000 from the agent reverts. -/
theorem C10_recordSettlement_belowMinReverts_witness :
    recordSettlement
      { self := 1, agentWallet := 2, settlementThreshold := 1000000,
        accumulatedBalance := 0, authorizedPayers := [2], totalSettled := 0,
        settlementCount := 0, usdc := [(1, 5000)] } 2 999 0
      = Except.error ContractError.AmountTooSmall :=
  C10_recordSettlement_belowMinReverts
    { self := 1, agentWallet := 2, settlementThreshold := 1000000,
      accumulatedBalance := 0, authorizedPayers := [2], totalSettled := 0,
      settlementCount := 0, usdc := [(1, 5000)] } 999 0 (by decide)

/-! ## The off-chain ledger: `settlement-tracker.ts` -/

/-- Constant `SETTLEMENT_THRESHOLD`: 1 USDC in micro-units. -/
def SETTLEMENT_THRESHOLD : Nat := 1000000

/-- One recorded payment. -/
structure PaymentRecord where
  queryId : String
  amount : Nat
  timestamp : Nat
  deriving DecidableEq, Repr

/-- One completed settlement, as appended to the persisted history. -/
structure SettlementRecord where
  transactionId : Option String
  arcTransactionHash : Option String
  amount : Nat
  queryIds : List String
  timestamp : Nat
  chains : List String
  deriving DecidableEq, Repr

/-- The persisted tracker state (the contents of `.settlement-state.json`). -/
structure TrackerState where
  accumulatedAmount : Nat
  payments : List PaymentRecord
  lastSettlementTime : Option Nat
  settlementHistory : List SettlementRecord
  deriving DecidableEq, Repr

/-- The tracker's initial state (a missing or unreadable state file). -/
def initialTrackerState : TrackerState :=
  { accumulatedAmount := 0, payments := [], lastSettlementTime := none,
    settlementHistory := [] }

/-- Models `recordPayment(queryId, amountMicroUsdc)` at wall-clock time `t`. -/
def recordPayment (s : TrackerState) (queryId : String) (amount t : Nat) :
    TrackerState :=
  { s with accumulatedAmount := s.accumulatedAmount + amount,
           payments := s.payments ++ [⟨queryId, amount, t⟩] }

/-- Models `shouldSettle()`. -/
def shouldSettle (s : TrackerState) : Bool :=
  SETTLEMENT_THRESHOLD ≤ s.accumulatedAmount

/-- Models `resetAfterSettlement()` at wall-clock time `now`: returns the settled
snapshot and the cleared state. -/
def resetAfterSettlement (s : TrackerState) (now : Nat) :
    (Nat × List PaymentRecord) × TrackerState :=
  ((s.accumulatedAmount, s.payments),
   { s with accumulatedAmount := 0, payments := [],
            lastSettlementTime := some now })

/-- Models `addSettlementToHistory(record)`. -/
def addSettlementToHistory (s : TrackerState) (r : SettlementRecord) :
    TrackerState :=
  { s with settlementHistory := s.settlementHistory ++ [r] }

/-- One call in a sequence of ledger mutations. -/
inductive TrackerOp
  | record (queryId : String) (amount t : Nat)
  | reset (now : Nat)
  deriving DecidableEq, Repr

/-- Apply one ledger call (the snapshot a reset returns is dropped here;
`resetAfterSettlement` itself is used where the snapshot matters). -/
def applyTrackerOp (s : TrackerState) : TrackerOp → TrackerState
  | .record q a t => recordPayment s q a t
  | .reset now => (resetAfterSettlement s now).2

/-- Run a sequence of ledger calls from a state. -/
def runTrackerOps (s : TrackerState) : List TrackerOp → TrackerState
  | [] => s
  | op :: rest => runTrackerOps (applyTrackerOp s op) rest

/-- Sum of the amounts of a payment list. -/
def sumAmounts (ps : List PaymentRecord) : Nat :=
  ps.foldr (fun p acc => p.amount + acc) 0

theorem sumAmounts_append (ps qs : List PaymentRecord) :
    sumAmounts (ps ++ qs) = sumAmounts ps + sumAmounts qs := by
  induction ps with
  | nil => simp [sumAmounts]
  | cons p rest ih =>
      simp [sumAmounts] at ih ⊢
      omega

/-- The ledger invariant is preserved by every call sequence. -/
theorem runTrackerOps_invariant (ops : List TrackerOp) (s : TrackerState)
    (h : s.accumulatedAmount = sumAmounts s.payments) :
    (runTrackerOps s ops).accumulatedAmount
      = sumAmounts (runTrackerOps s ops).payments := by
  induction ops generalizing s with
  | nil => exact h
  | cons op rest ih =>
      cases op with
      | record q a t =>
          refine ih _ ?_
          show (recordPayment s q a t).accumulatedAmount
            = sumAmounts (recordPayment s q a t).payments
          simp only [recordPayment]
          rw [sumAmounts_append, h]
          simp [sumAmounts]
      | reset now =>
          refine ih _ ?_
          simp [applyTrackerOp, resetAfterSettlement, sumAmounts]

/-- C2: after any sequence of `recordPayment` / `resetAfterSettlement`
calls from the initial state, the accumulated amount equals the sum of the
recorded-since-last-reset payments (the `payments` list is cleared by every
reset and appended by every record), and `resetAfterSettlement` returns
exactly the prior accumulated amount and prior payment list while leaving
the accumulator at zero with an empty payment list. -/
theorem C2_tracker_accumulatorInvariant (ops : List TrackerOp) (now : Nat) :
    (runTrackerOps initialTrackerState ops).accumulatedAmount
      = sumAmounts (runTrackerOps initialTrackerState ops).payments ∧
    (resetAfterSettlement (runTrackerOps initialTrackerState ops) now).1
      = ((runTrackerOps initialTrackerState ops).accumulatedAmount,
         (runTrackerOps initialTrackerState ops).payments) ∧
    (resetAfterSettlement (runTrackerOps initialTrackerState ops) now).2.accumulatedAmount
      = 0 ∧
    (resetAfterSettlement (runTrackerOps initialTrackerState ops) now).2.payments
      = [] := by
  refine ⟨runTrackerOps_invariant ops initialTrackerState rfl, rfl, rfl, rfl⟩

/-! ## The billing check: `app/api/query/route.ts` -/

/-- The module-level `sessionVersions` map, insertion-ordered. -/
abbrev SessionVersions := List (String × Int)

/-- Models `sessionVersions.get(appSessionId) ?? 0`. -/
def getVersion : SessionVersions → String → Int
  | [], _ => 0
  | (k, v) :: rest, sid => if sid = k then v else getVersion rest sid

/-- Models `sessionVersions.set(appSessionId, version)`. -/
def setVersion : SessionVersions → String → Int → SessionVersions
  | [], sid, v => [(sid, v)]
  | (k, w) :: rest, sid, v =>
      if sid = k then (sid, v) :: rest else (k, w) :: setVersion rest sid v

theorem getVersion_setVersion_same (m : SessionVersions) (sid : String)
    (v : Int) : getVersion (setVersion m sid v) sid = v := by
  induction m with
  | nil => simp [setVersion, getVersion]
  | cons hd tl ih =>
      obtain ⟨k, w⟩ := hd
      by_cases h : sid = k
      · simp [setVersion, h, getVersion]
      · simp [setVersion, h, getVersion, ih]

theorem getVersion_setVersion_ne (m : SessionVersions) (sid other : String)
    (v : Int) (h : other ≠ sid) :
    getVersion (setVersion m sid v) other = getVersion m other := by
  induction m with
  | nil => simp [setVersion, getVersion, h]
  | cons hd tl ih =>
      obtain ⟨k, w⟩ := hd
      by_cases h' : sid = k
      · subst h'
        simp [setVersion, getVersion, h]
      · by_cases ho : other = k
        · simp [setVersion, h', getVersion, ho]
        · simp [setVersion, h', getVersion, ho, ih]

/-- Outcome of the payment-proof validation in `POST /api/query`; both
rejections are answered with HTTP 402 (payment required). -/
inductive BillingOutcome
  | accepted
  | invalidProof
  | staleVersion
  deriving DecidableEq, Repr

/-- Whether the outcome is a 402 payment-required response. -/
def isPaymentRequired : BillingOutcome → Bool
  | .accepted => false
  | .invalidProof => true
  | .staleVersion => true

/-- The payment-proof validation of `POST /api/query`: a proof needs a
non-empty `appSessionId` and a numeric `version > 0`; the version must be
strictly greater than the last one seen for that session (0 if none); on
acceptance the last-seen version is updated. -/
def checkPaymentProof (m : SessionVersions) (sid : String) (version : Int) :
    BillingOutcome × SessionVersions :=
  if sid = "" ∨ version ≤ 0 then (.invalidProof, m)
  else
    let lastVersion := getVersion m sid
    if version ≤ lastVersion then (.staleVersion, m)
    else (.accepted, setVersion m sid version)

/-- C3: a proof is accepted only when its version strictly exceeds the
last accepted version for that session id (0 if none) — acceptance stores
the presented version and touches no other session; a version at or below
the last one is rejected with a payment-required outcome and the stored
map is unchanged; a fresh strictly-greater positive version is accepted. -/
theorem C3_route_replayProtection (m : SessionVersions) (sid : String)
    (version : Int) (hsid : sid ≠ "") :
    ((checkPaymentProof m sid version).1 = BillingOutcome.accepted →
       getVersion m sid < version ∧
       getVersion (checkPaymentProof m sid version).2 sid = version ∧
       ∀ other, other ≠ sid →
         getVersion (checkPaymentProof m sid version).2 other
           = getVersion m other) ∧
    (version ≤ getVersion m sid →
       isPaymentRequired (checkPaymentProof m sid version).1 = true ∧
       (checkPaymentProof m sid version).2 = m) ∧
    (0 < version → getVersion m sid < version →
       (checkPaymentProof m sid version).1 = BillingOutcome.accepted) := by
  unfold checkPaymentProof
  by_cases h0 : sid = "" ∨ version ≤ 0
  · rw [if_pos h0]
    refine ⟨fun habs => absurd habs (by simp), fun _ => ⟨rfl, rfl⟩,
      fun hv _ => ?_⟩
    rcases h0 with h | h
    · exact absurd h hsid
    · omega
  · rw [if_neg h0]
    simp only
    by_cases hle : version ≤ getVersion m sid
    · rw [if_pos hle]
      exact ⟨fun habs => absurd habs (by simp), fun _ => ⟨rfl, rfl⟩,
        fun _ hlt => absurd hle (by omega)⟩
    · rw [if_neg hle]
      exact ⟨fun _ => ⟨by omega, getVersion_setVersion_same m sid version,
          fun other hne => getVersion_setVersion_ne m sid other version hne⟩,
        fun habs => absurd habs hle, fun _ _ => rfl⟩

/-- Closed instance of C3: with version 5 already accepted for session
"s", a replay of version 5 is rejected with 402 and the map unchanged. -/
theorem C3_route_replayProtection_witness :
    ((checkPaymentProof [("s", 5)] "s" 5).1 = BillingOutcome.accepted →
       getVersion [("s", 5)] "s" < 5 ∧
       getVersion (checkPaymentProof [("s", 5)] "s" 5).2 "s" = 5 ∧
       ∀ other, other ≠ "s" →
         getVersion (checkPaymentProof [("s", 5)] "s" 5).2 other
           = getVersion [("s", 5)] other) ∧
    ((5 : Int) ≤ getVersion [("s", 5)] "s" →
       isPaymentRequired (checkPaymentProof [("s", 5)] "s" 5).1 = true ∧
       (checkPaymentProof [("s", 5)] "s" 5).2 = [("s", 5)]) ∧
    ((0 : Int) < 5 → getVersion [("s", 5)] "s" < 5 →
       (checkPaymentProof [("s", 5)] "s" 5).1 = BillingOutcome.accepted) :=
  C3_route_replayProtection [("s", 5)] "s" 5 (by decide)

/-! ## The settlement coordinator: `settlement-service.ts` -/

/-- Constant `MAX_RETRIES`. -/
def MAX_RETRIES : Nat := 3

/-- Constant `RETRY_BASE_DELAY_MS`. -/
def RETRY_BASE_DELAY_MS : Nat := 2000

/-- The trace of one `withRetry` run: its result, how many times the
wrapped function was invoked, and the delays slept between consecutive
attempts. -/
structure RetryTrace (T : Type) where
  result : Except String T
  attemptsMade : Nat
  delays : List Nat
  deriving Repr

/-- The `for attempt in 1..maxRetries` loop body of `withRetry`:
`fn k` is the outcome of the k-th call; a failure before the final attempt
sleeps `RETRY_BASE_DELAY_MS * 2 ^ (attempt - 1)` and retries; the final
failure is rethrown. -/
def retryLoop {T : Type} (fn : Nat → Except String T) (lastError : String)
    (attempt : Nat) : Nat → RetryTrace T
  | 0 => { result := .error lastError, attemptsMade := 0, delays := [] }
  | remaining + 1 =>
      match fn attempt with
      | .ok v => { result := .ok v, attemptsMade := 1, delays := [] }
      | .error e =>
          if remaining = 0 then
            { result := .error e, attemptsMade := 1, delays := [] }
          else
            let rest := retryLoop fn e (attempt + 1) remaining
            { result := rest.result, attemptsMade := rest.attemptsMade + 1,
              delays := RETRY_BASE_DELAY_MS * 2 ^ (attempt - 1) :: rest.delays }

/-- Models `withRetry(fn, label, maxRetries)`. -/
def withRetry {T : Type} (fn : Nat → Except String T) (maxRetries : Nat) :
    RetryTrace T :=
  retryLoop fn "" 1 maxRetries

/-- C9: the retried on-chain call makes at most 3 attempts; the delay
between attempt k and attempt k+1 is `2000 * 2 ^ (k - 1)` ms; the first
successful attempt's result is returned; when all 3 attempts fail the
error of the last attempt is surfaced. -/
theorem C9_withRetry_backoff {T : Type} (fn : Nat → Except String T) :
    (withRetry fn MAX_RETRIES).attemptsMade ≤ 3 ∧
    (∀ v, fn 1 = .ok v →
      withRetry fn MAX_RETRIES = ⟨.ok v, 1, []⟩) ∧
    (∀ e1 v, fn 1 = .error e1 → fn 2 = .ok v →
      withRetry fn MAX_RETRIES = ⟨.ok v, 2, [2000]⟩) ∧
    (∀ e1 e2 v, fn 1 = .error e1 → fn 2 = .error e2 → fn 3 = .ok v →
      withRetry fn MAX_RETRIES = ⟨.ok v, 3, [2000, 4000]⟩) ∧
    (∀ e1 e2 e3, fn 1 = .error e1 → fn 2 = .error e2 → fn 3 = .error e3 →
      withRetry fn MAX_RETRIES = ⟨.error e3, 3, [2000, 4000]⟩) := by
  refine ⟨?_, ?_, ?_, ?_, ?_⟩
  · rcases h1 : fn 1 with e1 | v1 <;> rcases h2 : fn 2 with e2 | v2 <;>
      rcases h3 : fn 3 with e3 | v3 <;>
      simp [withRetry, MAX_RETRIES, retryLoop, RETRY_BASE_DELAY_MS, h1, h2, h3]
  · intro v h1
    simp [withRetry, MAX_RETRIES, retryLoop, RETRY_BASE_DELAY_MS, h1]
  · intro e1 v h1 h2
    simp [withRetry, MAX_RETRIES, retryLoop, RETRY_BASE_DELAY_MS, h1, h2]
  · intro e1 e2 v h1 h2 h3
    simp [withRetry, MAX_RETRIES, retryLoop, RETRY_BASE_DELAY_MS, h1, h2, h3]
  · intro e1 e2 e3 h1 h2 h3
    simp [withRetry, MAX_RETRIES, retryLoop, RETRY_BASE_DELAY_MS, h1, h2, h3]

/-- Closed instance of C9: two failures then a success yields the success
after delays 2000 and 4000 ms. -/
theorem C9_withRetry_backoff_witness :
    withRetry (fun k => if k ≤ 2 then Except.error "rpc timeout"
      else Except.ok 42) MAX_RETRIES
      = ⟨Except.ok 42, 3, [2000, 4000]⟩ :=
  (C9_withRetry_backoff
      (fun k => if k ≤ 2 then Except.error "rpc timeout"
        else Except.ok 42)).2.2.2.1
    "rpc timeout" "rpc timeout" 42 rfl rfl rfl

/-- Coordinator-visible failures of `triggerOnChainSettlement`. -/
inductive SettlementError
  | SettlementInProgress
  | NothingToSettle
  | ChainError (e : String)
  deriving DecidableEq, Repr

/-- The settlement service's process state: the module-level
`settlementInProgress` single-flight flag plus the persisted tracker. -/
structure ServiceState where
  inProgress : Bool
  tracker : TrackerState
  deriving DecidableEq, Repr

/-- The synchronous prologue of `triggerOnChainSettlement` — everything
before the first `await` (the in-progress check, the nothing-to-settle
check, and setting the flag) runs as one atomic step of the
single-threaded event loop, so it is the unit of interleaving between two
concurrent invocations. -/
def settlementPrologue (s : ServiceState) :
    Except SettlementError ServiceState :=
  if s.inProgress then .error .SettlementInProgress
  else if s.tracker.accumulatedAmount = 0 then .error .NothingToSettle
  else .ok { s with inProgress := true }

/-- Models `triggerOnChainSettlement()`, with the network as oracles:
`baseOutcomes k` is what the k-th Base Sepolia `recordSettlement` write
attempt returns, and `arcOutcome` is what `settleOnArc` returns (that
helper catches its own failures, yielding `none` when Arc is unconfigured
or its call fails).  The `finally` clears the flag on every path that set
it; the ledger is reset only after the retried primary call succeeded. -/
def triggerOnChainSettlement (s : ServiceState)
    (baseOutcomes : Nat → Except String String) (arcOutcome : Option String)
    (now : Nat) : Except SettlementError SettlementRecord × ServiceState :=
  if s.inProgress then (.error .SettlementInProgress, s)
  else if s.tracker.accumulatedAmount = 0 then (.error .NothingToSettle, s)
  else
    match (withRetry baseOutcomes MAX_RETRIES).result with
    | .error e => (.error (.ChainError e), { s with inProgress := false })
    | .ok txHash =>
        let settled := resetAfterSettlement s.tracker now
        let chains := "base-sepolia" ::
          (match arcOutcome with
           | some _ => ["arc-testnet"]
           | none => [])
        let result : SettlementRecord :=
          { transactionId := some txHash, arcTransactionHash := arcOutcome,
            amount := settled.1.1,
            queryIds := settled.1.2.map (fun p => p.queryId),
            timestamp := now, chains := chains }
        (.ok result,
         { inProgress := false,
           tracker := addSettlementToHistory settled.2 result })

/-- Models `checkAndAutoSettle()`: no-op below the threshold or while a
settlement is in flight; otherwise triggers and swallows failures. -/
def checkAndAutoSettle (s : ServiceState)
    (baseOutcomes : Nat → Except String String) (arcOutcome : Option String)
    (now : Nat) : Option SettlementRecord × ServiceState :=
  if ¬ shouldSettle s.tracker then (none, s)
  else if s.inProgress then (none, s)
  else
    match triggerOnChainSettlement s baseOutcomes arcOutcome now with
    | (.ok r, s') => (some r, s')
    | (.error _, s') => (none, s')

/-- C4: `triggerOnChainSettlement` fails with `SettlementInProgress` when
the flag is already held, fails with `NothingToSettle` when the
accumulated amount is zero, and otherwise acquires the single-flight flag
and ends with it released whatever the outcome; of two interleaved
invocations the first's prologue takes the flag and the second's
prologue observes `SettlementInProgress`. -/
theorem C4_trigger_singleFlight (s : ServiceState)
    (baseOutcomes : Nat → Except String String) (arcOutcome : Option String)
    (now : Nat) :
    (s.inProgress = true →
      triggerOnChainSettlement s baseOutcomes arcOutcome now
        = (.error .SettlementInProgress, s)) ∧
    (s.inProgress = false → s.tracker.accumulatedAmount = 0 →
      triggerOnChainSettlement s baseOutcomes arcOutcome now
        = (.error .NothingToSettle, s)) ∧
    (s.inProgress = false → s.tracker.accumulatedAmount ≠ 0 →
      (triggerOnChainSettlement s baseOutcomes arcOutcome now).2.inProgress
          = false ∧
      settlementPrologue s = .ok { s with inProgress := true } ∧
      settlementPrologue { s with inProgress := true }
        = .error .SettlementInProgress) := by
  refine ⟨fun hflag => ?_, fun hflag hacc => ?_, fun hflag hacc => ?_⟩
  · unfold triggerOnChainSettlement
    rw [if_pos hflag]
  · unfold triggerOnChainSettlement
    rw [if_neg (by simp [hflag]), if_pos hacc]
  · refine ⟨?_, ?_, ?_⟩
    · unfold triggerOnChainSettlement
      rw [if_neg (by simp [hflag]), if_neg hacc]
      rcases h : (withRetry baseOutcomes MAX_RETRIES).result with e | tx <;> simp [h]
    · unfold settlementPrologue
      rw [if_neg (by simp [hflag]), if_neg hacc]
    · unfold settlementPrologue
      rw [if_pos rfl]

/-- Closed instance of C4: with the flag already held, a second
invocation observes `SettlementInProgress`. -/
theorem C4_trigger_singleFlight_witness :
    triggerOnChainSettlement
        { inProgress := true,
          tracker := { accumulatedAmount := 1500000,
                       payments := [⟨"q1", 1500000, 10⟩],
                       lastSettlementTime := none, settlementHistory := [] } }
        (fun _ => Except.ok "0xbase") (some "0xarc") 99
      = (.error .SettlementInProgress,
         { inProgress := true,
           tracker := { accumulatedAmount := 1500000,
                        payments := [⟨"q1", 1500000, 10⟩],
                        lastSettlementTime := none,
                        settlementHistory := [] } }) :=
  (C4_trigger_singleFlight
      { inProgress := true,
        tracker := { accumulatedAmount := 1500000,
                     payments := [⟨"q1", 1500000, 10⟩],
                     lastSettlementTime := none, settlementHistory := [] } }
      (fun _ => Except.ok "0xbase") (some "0xarc") 99).1 rfl

/-- C5: the ledger is reset only after the retried primary (Base Sepolia)
call succeeds — when every retried attempt fails the tracker is left
unchanged (both by `triggerOnChainSettlement` and through
`checkAndAutoSettle`), so the value is retried later; a failed secondary
(Arc) call does not prevent the reset; and the result's `chains` list
holds exactly the targets whose calls succeeded. -/
theorem C5_resetOnlyAfterPrimarySuccess (s : ServiceState)
    (baseOutcomes : Nat → Except String String) (arcOutcome : Option String)
    (now : Nat)
    (hflag : s.inProgress = false) (hacc : s.tracker.accumulatedAmount ≠ 0) :
    ((∃ e, (withRetry baseOutcomes MAX_RETRIES).result = .error e) →
      (triggerOnChainSettlement s baseOutcomes arcOutcome now).2.tracker
          = s.tracker ∧
      (∃ e, (triggerOnChainSettlement s baseOutcomes arcOutcome now).1
          = .error (.ChainError e)) ∧
      (checkAndAutoSettle s baseOutcomes arcOutcome now).2.tracker
          = s.tracker) ∧
    (∀ tx, (withRetry baseOutcomes MAX_RETRIES).result = .ok tx →
      ∃ r, (triggerOnChainSettlement s baseOutcomes arcOutcome now).1
          = .ok r ∧
        r.amount = s.tracker.accumulatedAmount ∧
        (triggerOnChainSettlement s baseOutcomes arcOutcome now).2.tracker.accumulatedAmount
          = 0 ∧
        (triggerOnChainSettlement s baseOutcomes arcOutcome now).2.tracker.payments
          = [] ∧
        r.chains = "base-sepolia" ::
          (match arcOutcome with
           | some _ => ["arc-testnet"]
           | none => [])) := by
  constructor
  · rintro ⟨e, he⟩
    have htrig : triggerOnChainSettlement s baseOutcomes arcOutcome now
        = (.error (.ChainError e), { s with inProgress := false }) := by
      unfold triggerOnChainSettlement
      rw [if_neg (by simp [hflag]), if_neg hacc, he]
    refine ⟨by rw [htrig], ⟨e, by rw [htrig]⟩, ?_⟩
    unfold checkAndAutoSettle
    by_cases hst : shouldSettle s.tracker
    · rw [if_neg (by simp [hst]), if_neg (by simp [hflag]), htrig]
    · rw [if_pos (by simp [hst])]
  · intro tx htx
    have htrig : triggerOnChainSettlement s baseOutcomes arcOutcome now
        = ((.ok
            { transactionId := some tx, arcTransactionHash := arcOutcome,
              amount := s.tracker.accumulatedAmount,
              queryIds := s.tracker.payments.map (fun p => p.queryId),
              timestamp := now,
              chains := "base-sepolia" ::
                (match arcOutcome with
                 | some _ => ["arc-testnet"]
                 | none => []) }),
           { inProgress := false,
             tracker := addSettlementToHistory
               (resetAfterSettlement s.tracker now).2
               { transactionId := some tx, arcTransactionHash := arcOutcome,
                 amount := s.tracker.accumulatedAmount,
                 queryIds := s.tracker.payments.map (fun p => p.queryId),
                 timestamp := now,
                 chains := "base-sepolia" ::
                   (match arcOutcome with
                    | some _ => ["arc-testnet"]
                    | none => []) } }) := by
      unfold triggerOnChainSettlement
      rw [if_neg (by simp [hflag]), if_neg hacc, htx]
      rfl
    rw [htrig]
    exact ⟨_, rfl, rfl, rfl, rfl, rfl⟩

/-- Closed instance of C5: all three primary attempts fail, a successful
Arc oracle notwithstanding, and the tracker is untouched. -/
theorem C5_resetOnlyAfterPrimarySuccess_witness :
    (triggerOnChainSettlement
        { inProgress := false,
          tracker := { accumulatedAmount := 1500000,
                       payments := [⟨"q1", 1500000, 10⟩],
                       lastSettlementTime := none, settlementHistory := [] } }
        (fun _ => Except.error "rpc down") (some "0xarc") 99).2.tracker
      = { accumulatedAmount := 1500000, payments := [⟨"q1", 1500000, 10⟩],
          lastSettlementTime := none, settlementHistory := [] } ∧
    (∃ e, (triggerOnChainSettlement
        { inProgress := false,
          tracker := { accumulatedAmount := 1500000,
                       payments := [⟨"q1", 1500000, 10⟩],
                       lastSettlementTime := none, settlementHistory := [] } }
        (fun _ => Except.error "rpc down") (some "0xarc") 99).1
      = .error (.ChainError e)) ∧
    (checkAndAutoSettle
        { inProgress := false,
          tracker := { accumulatedAmount := 1500000,
                       payments := [⟨"q1", 1500000, 10⟩],
                       lastSettlementTime := none, settlementHistory := [] } }
        (fun _ => Except.error "rpc down") (some "0xarc") 99).2.tracker
      = { accumulatedAmount := 1500000, payments := [⟨"q1", 1500000, 10⟩],
          lastSettlementTime := none, settlementHistory := [] } :=
  (C5_resetOnlyAfterPrimarySuccess
      { inProgress := false,
        tracker := { accumulatedAmount := 1500000,
                     payments := [⟨"q1", 1500000, 10⟩],
                     lastSettlementTime := none, settlementHistory := [] } }
      (fun _ => Except.error "rpc down") (some "0xarc") 99
      rfl (by decide)).1
    ⟨"rpc down", by simp [withRetry, MAX_RETRIES, retryLoop]⟩

/-! ## The state-channel client: `YellowPaymentClient` -/

/-- The client session state relevant to payments. -/
structure ClientState where
  appSessionId : Option String
  stateVersion : Nat
  userBalance : Int
  agentBalance : Int
  deriving DecidableEq, Repr

/-- Errors `sendMicropayment` can surface. -/
inductive PayError
  | NoActiveSession
  | InsufficientBalance
  | RelayError (e : String)
  deriving DecidableEq, Repr

/-- The `PaymentResult` returned on success. -/
structure PaymentSendResult where
  queryId : String
  amount : Int
  appSessionId : String
  version : Nat
  deriving DecidableEq, Repr

/-- Models `sendMicropayment(amount, queryId)`: requires an active app session;
rejects `amount > userBalance` before anything else; `resp` is the
relay's reply to the submitted state update (`.ok v` carries the
optionally returned version, `.error` a relay failure or timeout).  The
local balances and version are mutated only after a successful reply, so
every error path leaves the state untouched. -/
def sendMicropayment (c : ClientState) (amount : Int) (queryId : String)
    (resp : Except String (Option Nat)) :
    Except PayError PaymentSendResult × ClientState :=
  match c.appSessionId with
  | none => (.error .NoActiveSession, c)
  | some sid =>
      if c.userBalance < amount then (.error .InsufficientBalance, c)
      else
        match resp with
        | .error e => (.error (.RelayError e), c)
        | .ok vOpt =>
            let newUserBalance := c.userBalance - amount
            let newAgentBalance := c.agentBalance + amount
            let newVersion := vOpt.getD (c.stateVersion + 1)
            (.ok { queryId := queryId, amount := amount, appSessionId := sid,
                   version := newVersion },
             { c with userBalance := newUserBalance,
                      agentBalance := newAgentBalance,
                      stateVersion := newVersion })

/-- C6: on a session with an active app session id, paying more than
`userBalance` fails with `InsufficientBalance` and changes nothing (so a
non-negative `userBalance` can never be driven below zero); every
successful call moves exactly `amount` from `userBalance` to
`agentBalance`, preserving their sum. -/
theorem C6_sendMicropayment_balances (c : ClientState) (amount : Int)
    (queryId : String) (resp : Except String (Option Nat)) (sid : String)
    (hsid : c.appSessionId = some sid) :
    (c.userBalance < amount →
      sendMicropayment c amount queryId resp
        = (.error .InsufficientBalance, c)) ∧
    (∀ r c', sendMicropayment c amount queryId resp = (.ok r, c') →
      c'.userBalance = c.userBalance - amount ∧
      c'.agentBalance = c.agentBalance + amount ∧
      c'.userBalance + c'.agentBalance = c.userBalance + c.agentBalance) ∧
    (0 ≤ c.userBalance →
      0 ≤ (sendMicropayment c amount queryId resp).2.userBalance) := by
  unfold sendMicropayment
  rw [hsid]
  simp only
  by_cases hbal : c.userBalance < amount
  · rw [if_pos hbal]
    exact ⟨fun _ => rfl, fun r c' habs => by simp at habs, fun h0 => h0⟩
  · rw [if_neg hbal]
    rcases resp with e | vOpt
    · exact ⟨fun habs => absurd habs hbal,
        fun r c' habs => by simp at habs, fun h0 => h0⟩
    · refine ⟨fun habs => absurd habs hbal, fun r c' hok => ?_, fun h0 => ?_⟩
      · obtain ⟨-, hc⟩ := Prod.mk.injEq .. ▸ hok
        subst hc
        refine ⟨rfl, rfl, by simp⟩
      · simp only
        omega

/-- Closed instance of C6: a 30-unit payment from a 100-unit balance. -/
theorem C6_sendMicropayment_balances_witness :
    (((100 : Int) < 30) →
      sendMicropayment
          { appSessionId := some "app1", stateVersion := 5,
            userBalance := 100, agentBalance := 7 } 30 "q9"
          (Except.ok (some 6))
        = (.error .InsufficientBalance,
           { appSessionId := some "app1", stateVersion := 5,
             userBalance := 100, agentBalance := 7 })) ∧
    (∀ r c', sendMicropayment
          { appSessionId := some "app1", stateVersion := 5,
            userBalance := 100, agentBalance := 7 } 30 "q9"
          (Except.ok (some 6)) = (.ok r, c') →
      c'.userBalance = 100 - 30 ∧
      c'.agentBalance = 7 + 30 ∧
      c'.userBalance + c'.agentBalance = 100 + 7) ∧
    ((0 : Int) ≤ 100 →
      0 ≤ (sendMicropayment
          { appSessionId := some "app1", stateVersion := 5,
            userBalance := 100, agentBalance := 7 } 30 "q9"
          (Except.ok (some 6))).2.userBalance) :=
  C6_sendMicropayment_balances
    { appSessionId := some "app1", stateVersion := 5,
      userBalance := 100, agentBalance := 7 } 30 "q9"
    (Except.ok (some 6)) "app1" rfl

/-- What `handleMessage` does to the pending-request table for one
response frame. -/
inductive FrameAction
  | resolved (key : String)
  | rejectedMatching (key : String)
  | rejectedOldest (key : String)
  | ignored
  deriving DecidableEq, Repr

/-- The pending-request handling of `handleMessage` for a frame whose
method tag is `method`, over the table's keys in insertion order: an
exact tag match is resolved (or rejected, when the tag is `error`) and
removed; an `error` frame with no match and a non-empty table rejects
and removes only the first-inserted entry; anything else falls through
to the logging switch. -/
def handleResponseFrame (pending : List String) (method : String) :
    FrameAction × List String :=
  if method ∈ pending then
    if method = "error" then (.rejectedMatching method, pending.erase method)
    else (.resolved method, pending.erase method)
  else
    match pending with
    | [] => (.ignored, [])
    | oldest :: rest =>
        if method = "error" then (.rejectedOldest oldest, rest)
        else (.ignored, oldest :: rest)

/-- Counterexample to C8 as stated: with two pending requests and an
unmatched `error` frame, only the oldest entry is rejected — the frame
leaves `"submit_app_state"` still pending, so not every currently
pending request is failed. -/
theorem C8_counterexample_secondPendingSurvives :
    handleResponseFrame ["auth_verify", "submit_app_state"] "error"
      = (.rejectedOldest "auth_verify", ["submit_app_state"]) ∧
    ["submit_app_state"] ≠ ([] : List String) := by
  constructor
  · rfl
  · simp

/-- C8 (amended): when the client receives a frame whose method tag is
`error` and no pending-request entry matches that tag, only the oldest
(first-inserted) pending request is rejected with that error; the
remaining pending requests stay in the table. -/
theorem C8_error_rejectsOldestPending (pending rest : List String)
    (oldest : String) (h : pending = oldest :: rest)
    (hnm : "error" ∉ pending) :
    handleResponseFrame pending "error" = (.rejectedOldest oldest, rest) := by
  subst h
  unfold handleResponseFrame
  rw [if_neg hnm]
  rfl

/-- Closed instance of the amended C8. -/
theorem C8_error_rejectsOldestPending_witness :
    handleResponseFrame ["auth_challenge", "create_app_session"] "error"
      = (.rejectedOldest "auth_challenge", ["create_app_session"]) :=
  C8_error_rejectsOldestPending ["auth_challenge", "create_app_session"]
    ["create_app_session"] "auth_challenge" rfl (by decide)

end QueryFi
